import Mathlib

/-!
# Order/Payment/Refund workflow of the Follower-Cart backend

Shallow embedding of the order lifecycle logic of `src/routes/auth.js`
together with the Mongoose schemas `src/models/order.js`,
`src/models/Payment.js` and the Refund schema (`src/unnamed/part_000`).

Modelling conventions, matched against the source:

* Mongo documents become records in lists; `findById` becomes `List.find?`
  on a numeric id field and `findByIdAndUpdate` becomes a `List.map` that
  rewrites every record with the matching id.
* Statuses, payment methods and error-free string fields keep the literal
  strings of the source.
* A request field that Javascript would see as `undefined` or as another
  falsy value (`""`, `0`) is modelled so that the route's truthiness test
  gives the same verdict: optional ids and numbers are `Option`, string
  fields use `""` for an absent value, a numeric `amount` tested with `!`
  uses `0` for the falsy values.
* Each route handler becomes a function `DB → request → DB × RouteResult`
  returning the updated store and the class of the HTTP response.  Email
  dispatch (`sendEmail`) is fire-and-forget in the source and never
  changes the store or the response status, so it is not modelled.
  The `mongoose.Types.ObjectId.isValid` format checks are not modelled:
  every id in scope is well formed.
* Mongoose runs schema validators on `create` and on `save`, and on
  `findByIdAndUpdate` only when `runValidators: true` is passed.  The
  source passes `runValidators` on the order/payment/refund PATCH routes
  but NOT on the `Order.findByIdAndUpdate` calls made by the refund
  routes — those writes bypass the order status enum, and the embedding
  reproduces that.  A schema path the document does not declare reads as
  `undefined`, so a `required: true` field fed from such a path fails
  `create` validation — the refund intake trips over exactly this.
-/

namespace FollowerCart

/-- Outcome classes of the route handlers: `created` is HTTP 201, `ok` 200,
`invalidArgument` 400, `notFound` 404, `conflict` 409, `serverError` 500. -/
inductive RouteResult where
  | created
  | ok
  | invalidArgument
  | notFound
  | conflict
  | serverError
  deriving DecidableEq

/-- An Order document (`src/models/order.js`).  Only the fields the
workflow logic reads or writes are kept: the id and the status.  The
schema declares no `userId` path, so `order.userId` reads as `undefined`
in the refund intake — which is what makes `Refund.create` fail there
(see `refundRequests`).  The remaining declared fields (name, email,
platform, price, ...) are never read by any status transition. -/
structure OrderRec where
  oid : Nat
  status : String
  deriving DecidableEq

/-- A Payment document (`src/models/Payment.js`). -/
structure PaymentRec where
  pid : Nat
  orderId : Nat
  clientName : String
  clientEmail : String
  amount : Int
  paymentMethod : String
  transactionId : String
  screenshotUrl : String
  remarks : String
  status : String
  deriving DecidableEq

/-- A Refund document (Refund schema, `src/unnamed/part_000`). -/
structure RefundRec where
  rid : Nat
  userId : Nat
  orderId : Nat
  clientName : String
  clientEmail : String
  amount : Int
  reason : String
  status : String
  adminRemarks : String
  deriving DecidableEq

/-- The ledger store: the three collections the workflow touches. -/
structure DB where
  orders : List OrderRec
  payments : List PaymentRec
  refunds : List RefundRec
  deriving DecidableEq

def findOrder (db : DB) (i : Nat) : Option OrderRec :=
  db.orders.find? (fun o => o.oid == i)

def findPayment (db : DB) (i : Nat) : Option PaymentRec :=
  db.payments.find? (fun p => p.pid == i)

def findRefund (db : DB) (i : Nat) : Option RefundRec :=
  db.refunds.find? (fun r => r.rid == i)

/-- `Order.findByIdAndUpdate(id, { status: s })` — rewrites the status of
every order with the matching id.  No validation: the source never passes
`runValidators` on these calls (lines 80, 141, 160 of the refund routes),
and the `order.save()` calls elsewhere only ever store enum statuses. -/
def updateOrderStatus (db : DB) (i : Nat) (s : String) : DB :=
  { db with orders :=
      db.orders.map (fun o => if o.oid == i then { o with status := s } else o) }

/-- The order status enum of `orderSchema.status` (`src/models/order.js`):
`["Pending", "Payment Pending", "In Progress", "Completed", "Cancelled",
"Refunded", "Failed"]`. -/
def isOrderStatus (s : String) : Bool :=
  s == "Pending" || s == "Payment Pending" || s == "In Progress" ||
    s == "Completed" || s == "Cancelled" || s == "Refunded" || s == "Failed"

/-- The payment status enum of `PaymentSchema.status`. -/
def isPaymentStatus (s : String) : Bool :=
  s == "Pending" || s == "Approved" || s == "Rejected"

/-- The payment method enum of `PaymentSchema.paymentMethod`. -/
def isPaymentMethod (s : String) : Bool :=
  s == "easypaisa" || s == "jazzcash" || s == "bankTransfer" ||
    s == "paypal" || s == "googlePay"

/-! ## Refund intake — `POST /refundRequests` (`src/routes/auth.js` 49-93) -/

/-- Body of a refund submission.  `orderId = none` models a missing or
empty id (both falsy); `amount = 0` models the falsy numeric values. -/
structure RefundReq where
  orderId : Option Nat
  clientEmail : String
  clientName : String
  amount : Int
  reason : String
  deriving DecidableEq

/-- The route's intake guard:
`if (!orderId || !clientEmail || !clientName || !amount || !reason)`. -/
def missingRefundFields (req : RefundReq) : Bool :=
  req.orderId.isNone || req.clientEmail == "" || req.clientName == "" ||
    req.amount == 0 || req.reason == ""

/-- `POST /refundRequests`: validates the five fields, loads the order
(404 when absent, 409 when already `Refunded`).  The surviving branch
then calls `Refund.create({ userId: order.userId, ... })`;
`RefundSchema.userId` is `required: true` but `orderSchema` declares no
`userId` path, so `order.userId` is `undefined`, `Refund.create` always
fails validation, and the `catch` answers 500 with nothing written.  The
route's intended success path — refund stored with status `Pending`, then
`Order.findByIdAndUpdate(orderId, { status: "Refund Pending" })` — is
unreachable, so `Refund Pending` is never stored. -/
def refundRequests (db : DB) (req : RefundReq) : DB × RouteResult :=
  if missingRefundFields req then (db, .invalidArgument)
  else
    match req.orderId with
    | none => (db, .invalidArgument)
    | some oid =>
      match findOrder db oid with
      | none => (db, .notFound)
      | some order =>
        if order.status == "Refunded" then (db, .conflict)
        else (db, .serverError)

/-! ## Refund review — `PATCH /updateRefund/:id` (`src/routes/auth.js` 114-187) -/

/-- `PATCH /updateRefund/:id`: rejects a status outside
`["Approved", "Rejected"]`, updates the refund (status and adminRemarks,
`runValidators` holds since both statuses are in the refund enum), then
sets the order's status to `Refunded` on approval and to
`Refund Rejected` on rejection — unconditionally, whatever the order's
prior status, and again without update validation.  When the referenced
order does not exist, `.populate("orderId")` yields `null`, the
`Order.findByIdAndUpdate(null, ...)` is a no-op on the store, and the
email template's `refundRequest.orderId._id` then throws, so the `catch`
answers 500 — with the refund update already persisted either way. -/
def updateRefund (db : DB) (id : Nat) (status adminRemarks : String) :
    DB × RouteResult :=
  if !(status == "Approved" || status == "Rejected") then (db, .invalidArgument)
  else
    match findRefund db id with
    | none => (db, .notFound)
    | some r =>
      let newRefunds := db.refunds.map (fun q =>
        if q.rid == id then { q with status := status, adminRemarks := adminRemarks }
        else q)
      let db1 := { db with refunds := newRefunds }
      if status == "Approved" then
        let db2 := updateOrderStatus db1 r.orderId "Refunded"
        if (findOrder db1 r.orderId).isSome then (db2, .ok) else (db2, .serverError)
      else
        let db2 := updateOrderStatus db1 r.orderId "Refund Rejected"
        if (findOrder db1 r.orderId).isSome then (db2, .ok) else (db2, .serverError)

/-! ## Payment intake — `POST /createPayment` (`src/routes/auth.js` 940-1090) -/

/-- Body of a payment submission.  `orderId`/`amount` use `none` for a
missing value, string fields use `""`; `status` is the optional status
override the route reads from the body (`status || "Pending"`), with `""`
standing for an absent (falsy) value. -/
structure PaymentReq where
  orderId : Option Nat
  clientName : String
  clientEmail : String
  amount : Option Int
  paymentMethod : String
  transactionId : String
  screenshotUrl : String
  remarks : String
  status : String
  deriving DecidableEq

/-- The route's intake guard: `if (!orderId || !clientName || !clientEmail
|| amount === undefined || !paymentMethod || !transactionId)`. -/
def missingPaymentFields (req : PaymentReq) : Bool :=
  req.orderId.isNone || req.clientName == "" || req.clientEmail == "" ||
    req.amount.isNone || req.paymentMethod == "" || req.transactionId == ""

/-- The document `Payment.create` would store: defaults applied as in the
schema (`remarks` defaults to `"No remarks."`, the route defaults
`status` to `"Pending"`). -/
def newPaymentRec (req : PaymentReq) (freshId oid : Nat) (amt : Int) : PaymentRec :=
  { pid := freshId, orderId := oid, clientName := req.clientName,
    clientEmail := req.clientEmail, amount := amt,
    paymentMethod := req.paymentMethod, transactionId := req.transactionId,
    screenshotUrl := req.screenshotUrl,
    remarks := if req.remarks == "" then "No remarks." else req.remarks,
    status := if req.status == "" then "Pending" else req.status }

/-- Schema validation run by `Payment.create`: method and status in their
enums, `amount` at least `0` (`min: 0`). -/
def paymentDocValid (p : PaymentRec) : Bool :=
  isPaymentMethod p.paymentMethod && isPaymentStatus p.status && decide (0 ≤ p.amount)

/-- The single-field unique index on `transactionId`
(`transactionId: { unique: true }` in `src/models/Payment.js`).  It fires
whenever the compound `(transactionId, paymentMethod)` index would, and
also on a duplicate `transactionId` under a different method. -/
def duplicateTransaction (db : DB) (txn : String) : Bool :=
  db.payments.any (fun p => p.transactionId == txn)

/-- The compound unique index
`PaymentSchema.index({ transactionId: 1, paymentMethod: 1 }, { unique: true })`. -/
def transactionPairExists (db : DB) (txn method : String) : Bool :=
  db.payments.any (fun p => p.transactionId == txn && p.paymentMethod == method)

/-- `POST /createPayment`: intake guard, then `Payment.create` (schema
validation, then the unique indexes — a duplicate key surfaces as the 409
branch, a validation error as 500), then loads the order and, when it
exists, sets its status to `Payment Pending` unconditionally; a missing
order is only logged and the response is still 201 with the created
payment. -/
def createPayment (db : DB) (req : PaymentReq) (freshId : Nat) : DB × RouteResult :=
  if missingPaymentFields req then (db, .invalidArgument)
  else
    match req.orderId, req.amount with
    | some oid, some amt =>
      let newP := newPaymentRec req freshId oid amt
      if !(paymentDocValid newP) then (db, .serverError)
      else if duplicateTransaction db req.transactionId then (db, .conflict)
      else
        let db1 := { db with payments := db.payments ++ [newP] }
        match findOrder db1 oid with
        | some _ => (updateOrderStatus db1 oid "Payment Pending", .created)
        | none => (db1, .created)
    | _, _ => (db, .invalidArgument)

/-! ## Payment review — `PATCH /updatePayment/:id` (`src/routes/auth.js` 1132-1303) -/

/-- The patch body of a payment review: the route forwards `req.body`
verbatim; only `status` and `remarks` affect the modelled state. -/
structure PaymentPatch where
  status : Option String
  remarks : Option String
  deriving DecidableEq

/-- `Payment.findByIdAndUpdate(id, updates, { new: true })`. -/
def applyPaymentPatch (p : PaymentRec) (u : PaymentPatch) : PaymentRec :=
  { p with status := u.status.getD p.status, remarks := u.remarks.getD p.remarks }

/-- `runValidators: true` on the payment PATCH: a patched status must stay
inside the payment status enum. -/
def patchStatusValid (u : PaymentPatch) : Bool :=
  match u.status with
  | some s => isPaymentStatus s
  | none => true

/-- The guard of the payment-approval side effect, the disjunction whose
negation the source tests:
`orderToUpdate.status !== "Completed" && ... !== "Cancelled" && ...
!== "Refunded" && ... !== "Failed" && ... !== "In Progress"`. -/
def terminalOrActive (s : String) : Bool :=
  s == "Completed" || s == "Cancelled" || s == "Refunded" || s == "Failed" ||
    s == "In Progress"

/-- `PATCH /updatePayment/:id`: updates the payment; when the resulting
payment status is `Approved`, loads the order and moves it to
`In Progress` unless its status is already terminal or `In Progress`. -/
def updatePayment (db : DB) (id : Nat) (u : PaymentPatch) : DB × RouteResult :=
  if !(patchStatusValid u) then (db, .serverError)
  else
    match findPayment db id with
    | none => (db, .notFound)
    | some p =>
      let p1 := applyPaymentPatch p u
      let newPayments := db.payments.map (fun q => if q.pid == id then p1 else q)
      let db1 := { db with payments := newPayments }
      if p1.status == "Approved" then
        match findOrder db1 p1.orderId with
        | some o =>
          if terminalOrActive o.status then (db1, .ok)
          else (updateOrderStatus db1 p1.orderId "In Progress", .ok)
        | none => (db1, .ok)
      else (db1, .ok)

/-! ## Order routes (`src/routes/auth.js` 522-935) -/

/-- `POST /createOrder`: after field validation (on fields not modelled
here, none of which influence any status), stores a new order with
`status: "Pending"` hardcoded. -/
def createOrder (db : DB) (freshId : Nat) : DB × RouteResult :=
  ({ db with orders := db.orders ++ [{ oid := freshId, status := "Pending" }] },
    .created)

/-- `PATCH /updateOrder/:id` with `runValidators: true`: an arbitrary
patch, of which only a status write matters here; a status outside the
order enum fails update validation (500, nothing stored). -/
def updateOrder (db : DB) (id : Nat) (statusPatch : Option String) :
    DB × RouteResult :=
  match statusPatch with
  | some s =>
    if !(isOrderStatus s) then (db, .serverError)
    else
      match findOrder db id with
      | none => (db, .notFound)
      | some _ => (updateOrderStatus db id s, .ok)
  | none =>
    match findOrder db id with
    | none => (db, .notFound)
    | some _ => (db, .ok)

/-- `DELETE /deleteOrder/:id`. -/
def deleteOrder (db : DB) (id : Nat) : DB × RouteResult :=
  match findOrder db id with
  | none => (db, .notFound)
  | some _ =>
    ({ db with orders := db.orders.filter (fun o => !(o.oid == id)) }, .ok)

/-! ## The system step

Every route of the repository that writes an `Order.status` (the other
routes — user management, blog, image upload, the GET listings — never
touch an order and leave `DB.orders` unchanged). -/

/-- One mutating operation of the system. -/
inductive SysOp where
  | opCreateOrder (freshId : Nat)
  | opUpdateOrder (id : Nat) (statusPatch : Option String)
  | opDeleteOrder (id : Nat)
  | opCreatePayment (req : PaymentReq) (freshId : Nat)
  | opUpdatePayment (id : Nat) (u : PaymentPatch)
  | opRefundRequest (req : RefundReq)
  | opUpdateRefund (id : Nat) (status adminRemarks : String)
  deriving DecidableEq

/-- The store after one operation. -/
def sysStep (db : DB) : SysOp → DB
  | .opCreateOrder i => (createOrder db i).1
  | .opUpdateOrder i s => (updateOrder db i s).1
  | .opDeleteOrder i => (deleteOrder db i).1
  | .opCreatePayment r f => (createPayment db r f).1
  | .opUpdatePayment i u => (updatePayment db i u).1
  | .opRefundRequest r => (refundRequests db r).1
  | .opUpdateRefund i s a => (updateRefund db i s a).1

/-- Every stored order status lies in the declared schema enum. -/
def dbStatusesInEnum (db : DB) : Bool :=
  db.orders.all (fun o => isOrderStatus o.status)

/-- The schema enum extended by `Refund Rejected`, the one non-enum value
a reachable write stores: the refund review's rejection path writes it
past the (skipped) validators, while the intake's `Refund Pending` write
is unreachable (see `refundRequests`). -/
def isExtendedOrderStatus (s : String) : Bool :=
  isOrderStatus s || s == "Refund Rejected"

/-- Every stored order status lies in the extended status set. -/
def dbStatusesInExtendedEnum (db : DB) : Bool :=
  db.orders.all (fun o => isExtendedOrderStatus o.status)

/-! ## Helper lemmas about the store -/

/-- `find?` on the status-rewriting map, at the rewritten id. -/
theorem find_map_update (l : List OrderRec) (i : Nat) (s : String) :
    (l.map (fun o => if o.oid == i then { o with status := s } else o)).find?
        (fun o => o.oid == i)
      = (l.find? (fun o => o.oid == i)).map (fun o => { o with status := s }) := by
  induction l with
  | nil => rfl
  | cons a t ih =>
    by_cases hc : (a.oid == i) = true
    · simp only [List.map_cons, if_pos hc, List.find?_cons]
      simp [hc]
    · simp only [List.map_cons, if_neg hc, List.find?_cons]
      simp only [Bool.not_eq_true] at hc
      rw [hc]
      exact ih

/-- `findOrder` after `updateOrderStatus`, at the updated id. -/
theorem findOrder_updateOrderStatus (db : DB) (i : Nat) (s : String) :
    findOrder (updateOrderStatus db i s) i
      = (findOrder db i).map (fun o => { o with status := s }) :=
  find_map_update db.orders i s

/-- The status-rewriting map preserves any status predicate the new status
satisfies. -/
theorem all_map_update (l : List OrderRec) (i : Nat) (s : String)
    (p : String → Bool) (hs : p s = true)
    (h : l.all (fun o => p o.status) = true) :
    (l.map (fun o => if o.oid == i then { o with status := s } else o)).all
      (fun o => p o.status) = true := by
  rw [List.all_eq_true] at h ⊢
  intro o ho
  rcases List.mem_map.mp ho with ⟨o', ho', rfl⟩
  cases hc : o'.oid == i with
  | true => simp [hc, hs]
  | false => simpa [hc] using h o' ho'

/-- `updateOrderStatus` with a status in the extended set preserves the
extended-set invariant. -/
theorem extended_updateOrderStatus (db : DB) (i : Nat) (s : String)
    (hs : isExtendedOrderStatus s = true)
    (h : dbStatusesInExtendedEnum db = true) :
    dbStatusesInExtendedEnum (updateOrderStatus db i s) = true :=
  all_map_update db.orders i s isExtendedOrderStatus hs h

/-- The compound-index predicate implies the single-field one. -/
theorem pair_exists_duplicate (db : DB) (txn method : String)
    (h : transactionPairExists db txn method = true) :
    duplicateTransaction db txn = true := by
  unfold transactionPairExists at h
  unfold duplicateTransaction
  rw [List.any_eq_true] at h ⊢
  obtain ⟨p, hp, hcond⟩ := h
  simp only [Bool.and_eq_true] at hcond
  exact ⟨p, hp, hcond.1⟩

/-- Changing only the refunds collection does not change order lookups. -/
theorem findOrder_set_refunds (db : DB) (X : List RefundRec) (i : Nat) :
    findOrder { db with refunds := X } i = findOrder db i := rfl

/-- Changing only the payments collection does not change order lookups. -/
theorem findOrder_set_payments (db : DB) (X : List PaymentRec) (i : Nat) :
    findOrder { db with payments := X } i = findOrder db i := rfl

/-- `updateOrderStatus` only rewrites the orders collection. -/
theorem refunds_updateOrderStatus (db : DB) (i : Nat) (s : String) :
    (updateOrderStatus db i s).refunds = db.refunds := rfl

/-- `updateOrderStatus` only rewrites the orders collection. -/
theorem payments_updateOrderStatus (db : DB) (i : Nat) (s : String) :
    (updateOrderStatus db i s).payments = db.payments := rfl

/-! ## Claim theorems -/

/-- Claim C4: the success the claim describes never occurs — the code
500s instead.  A refund submission passing the intake guard, on an
existing order whose status is not `Refunded`, reaches `Refund.create`,
whose required `userId` is fed from `order.userId`, a path `orderSchema`
does not declare, hence `undefined`: validation fails, the route answers
500, and the store is unchanged — no `Pending` refund is created and the
order never moves to `Refund Pending`. -/
theorem refund_request_userid_validation_failure (db : DB) (req : RefundReq)
    (oid : Nat) (o : OrderRec)
    (hmiss : missingRefundFields req = false)
    (hoid : req.orderId = some oid)
    (hfind : findOrder db oid = some o)
    (hnotref : o.status ≠ "Refunded") :
    refundRequests db req = (db, RouteResult.serverError) := by
  have hb : (o.status == "Refunded") = false := beq_eq_false_iff_ne.mpr hnotref
  simp [refundRequests, hmiss, hoid, hfind, hb]

/-- Claim C4 witness: the failing input — a well-formed refund submission
on an existing `In Progress` order — evaluated concretely. -/
theorem refund_request_userid_validation_failure_witness :
    refundRequests ⟨[⟨1, "In Progress"⟩], [], []⟩
        ⟨some 1, "c@x.com", "Carl", 50, "late delivery"⟩
      = (⟨[⟨1, "In Progress"⟩], [], []⟩, RouteResult.serverError) :=
  refund_request_userid_validation_failure ⟨[⟨1, "In Progress"⟩], [], []⟩
    ⟨some 1, "c@x.com", "Carl", 50, "late delivery"⟩ 1 ⟨1, "In Progress"⟩
    (by decide) rfl rfl (by decide)

/-- Claim C5: reviewing an existing refund as `Approved` sets the
referenced order's status to `Refunded`, and as `Rejected` sets it to
`Refund Rejected`, whatever the order's prior status. -/
theorem refund_review_sets_order_status (db : DB) (id : Nat) (rem : String)
    (r : RefundRec) (o : OrderRec)
    (hr : findRefund db id = some r)
    (ho : findOrder db r.orderId = some o) :
    findOrder (updateRefund db id "Approved" rem).1 r.orderId
        = some { o with status := "Refunded" } ∧
    findOrder (updateRefund db id "Rejected" rem).1 r.orderId
        = some { o with status := "Refund Rejected" } := by
  constructor <;>
    simp [updateRefund, hr, findOrder_updateOrderStatus, findOrder_set_refunds, ho]

/-- Claim C5 witness at a concrete store (a `Completed` order is still
moved to `Refunded`). -/
theorem refund_review_sets_order_status_witness :
    findOrder (updateRefund
        ⟨[⟨1, "Completed"⟩], [], [⟨3, 7, 1, "Carl", "c@x.com", 50, "late", "Pending", ""⟩]⟩
        3 "Approved" "ok").1 1
      = some ⟨1, "Refunded"⟩ :=
  (refund_review_sets_order_status
    ⟨[⟨1, "Completed"⟩], [], [⟨3, 7, 1, "Carl", "c@x.com", 50, "late", "Pending", ""⟩]⟩
    3 "ok" ⟨3, 7, 1, "Carl", "c@x.com", 50, "late", "Pending", ""⟩ ⟨1, "Completed"⟩
    rfl rfl).1

/-- Claim C7: the three failure modes of the refund intake — missing
fields give `invalidArgument`, an unknown order gives `notFound`, an
already-`Refunded` order gives `conflict` — and each returns the store
unchanged: no refund is created and no order is mutated. -/
theorem refund_request_failure_cases (db : DB) (req : RefundReq) :
    (missingRefundFields req = true →
      refundRequests db req = (db, RouteResult.invalidArgument)) ∧
    (∀ oid, missingRefundFields req = false → req.orderId = some oid →
      findOrder db oid = none →
      refundRequests db req = (db, RouteResult.notFound)) ∧
    (∀ oid o, missingRefundFields req = false → req.orderId = some oid →
      findOrder db oid = some o → o.status = "Refunded" →
      refundRequests db req = (db, RouteResult.conflict)) := by
  refine ⟨?_, ?_, ?_⟩
  · intro h
    simp [refundRequests, h]
  · intro oid hm hoid hnone
    simp [refundRequests, hm, hoid, hnone]
  · intro oid o hm hoid hsome href
    simp [refundRequests, hm, hoid, hsome, href]

/-- Claim C7 witness: the conflict case at a concrete store. -/
theorem refund_request_failure_cases_witness :
    refundRequests ⟨[⟨1, "Refunded"⟩], [], []⟩
        ⟨some 1, "c@x.com", "Carl", 50, "late"⟩
      = (⟨[⟨1, "Refunded"⟩], [], []⟩, RouteResult.conflict) :=
  (refund_request_failure_cases ⟨[⟨1, "Refunded"⟩], [], []⟩
      ⟨some 1, "c@x.com", "Carl", 50, "late"⟩).2.2
    1 ⟨1, "Refunded"⟩ (by decide) rfl rfl rfl

/-- Claim C8: a refund review with a requested status outside
`{Approved, Rejected}` fails with `invalidArgument` and returns the store
unchanged: neither the refund nor any order is written. -/
theorem refund_review_invalid_status (db : DB) (id : Nat) (st rem : String)
    (h1 : st ≠ "Approved") (h2 : st ≠ "Rejected") :
    updateRefund db id st rem = (db, RouteResult.invalidArgument) := by
  have e1 : (st == "Approved") = false := beq_eq_false_iff_ne.mpr h1
  have e2 : (st == "Rejected") = false := beq_eq_false_iff_ne.mpr h2
  simp [updateRefund, e1, e2]

/-- Claim C8 witness at a concrete store. -/
theorem refund_review_invalid_status_witness :
    updateRefund ⟨[⟨1, "Pending"⟩], [], [⟨3, 7, 1, "Carl", "c@x.com", 50, "late", "Pending", ""⟩]⟩
        3 "Maybe" "hm"
      = (⟨[⟨1, "Pending"⟩], [], [⟨3, 7, 1, "Carl", "c@x.com", 50, "late", "Pending", ""⟩]⟩,
          RouteResult.invalidArgument) :=
  refund_review_invalid_status
    ⟨[⟨1, "Pending"⟩], [], [⟨3, 7, 1, "Carl", "c@x.com", 50, "late", "Pending", ""⟩]⟩
    3 "Maybe" "hm" (by decide) (by decide)

/-- Claim C10: a refund submission whose `amount` is `0` — falsy in the
route's guard though the Refund schema puts no lower bound on `amount` —
is rejected as missing-required-fields before any lookup or write: the
store comes back unchanged. -/
theorem refund_zero_amount_rejected (db : DB) (req : RefundReq)
    (h : req.amount = 0) :
    refundRequests db req = (db, RouteResult.invalidArgument) := by
  have hm : missingRefundFields req = true := by
    simp [missingRefundFields, h]
  simp [refundRequests, hm]

/-- Claim C10 witness: every other field well formed, the order exists and
is refundable, yet `amount = 0` still gives `invalidArgument` with the
store untouched. -/
theorem refund_zero_amount_rejected_witness :
    refundRequests ⟨[⟨1, "In Progress"⟩], [], []⟩
        ⟨some 1, "c@x.com", "Carl", 0, "late"⟩
      = (⟨[⟨1, "In Progress"⟩], [], []⟩, RouteResult.invalidArgument) :=
  refund_zero_amount_rejected ⟨[⟨1, "In Progress"⟩], [], []⟩
    ⟨some 1, "c@x.com", "Carl", 0, "late"⟩ rfl

/-- Claim C1: when a payment review sets the payment's status to
`Approved` and the referenced order exists, the order moves to
`In Progress` when its status is outside
`{Completed, Cancelled, Refunded, Failed, In Progress}` and is left
exactly as it was when inside that set. -/
theorem payment_approval_guard (db : DB) (id : Nat) (u : PaymentPatch)
    (p : PaymentRec) (o : OrderRec)
    (hu : u.status = some "Approved")
    (hp : findPayment db id = some p)
    (ho : findOrder db p.orderId = some o) :
    (terminalOrActive o.status = false →
      findOrder (updatePayment db id u).1 p.orderId
        = some { o with status := "In Progress" }) ∧
    (terminalOrActive o.status = true →
      findOrder (updatePayment db id u).1 p.orderId = some o) := by
  have hvalid : patchStatusValid u = true := by
    simp [patchStatusValid, hu, isPaymentStatus]
  have hst : (applyPaymentPatch p u).status = "Approved" := by
    simp [applyPaymentPatch, hu]
  have hoid : (applyPaymentPatch p u).orderId = p.orderId := rfl
  constructor <;> intro hterm <;>
    simp [updatePayment, hvalid, hp, hst, hoid, ho, hterm,
      findOrder_updateOrderStatus, findOrder_set_payments]

/-- Claim C1 witness: approving a pending payment moves its
`Payment Pending` order to `In Progress`. -/
theorem payment_approval_guard_witness :
    findOrder (updatePayment
        ⟨[⟨1, "Payment Pending"⟩],
         [⟨2, 1, "Carl", "c@x.com", 10, "paypal", "T1", "", "No remarks.", "Pending"⟩], []⟩
        2 ⟨some "Approved", none⟩).1 1
      = some ⟨1, "In Progress"⟩ :=
  (payment_approval_guard
    ⟨[⟨1, "Payment Pending"⟩],
     [⟨2, 1, "Carl", "c@x.com", 10, "paypal", "T1", "", "No remarks.", "Pending"⟩], []⟩
    2 ⟨some "Approved", none⟩
    ⟨2, 1, "Carl", "c@x.com", 10, "paypal", "T1", "", "No remarks.", "Pending"⟩
    ⟨1, "Payment Pending"⟩ rfl rfl rfl).1 rfl

/-- Claim C6: a well-formed payment submission whose
`(transactionId, paymentMethod)` pair already exists fails with
`conflict`, and the store comes back unchanged: no payment is persisted
and no order is touched. -/
theorem payment_duplicate_conflict (db : DB) (req : PaymentReq)
    (freshId oid : Nat) (amt : Int)
    (hmiss : missingPaymentFields req = false)
    (hoid : req.orderId = some oid)
    (hamt : req.amount = some amt)
    (hvalid : paymentDocValid (newPaymentRec req freshId oid amt) = true)
    (hpair : transactionPairExists db req.transactionId req.paymentMethod = true) :
    createPayment db req freshId = (db, RouteResult.conflict) := by
  have hdup := pair_exists_duplicate db req.transactionId req.paymentMethod hpair
  simp [createPayment, hmiss, hoid, hamt, hvalid, hdup]

/-- Claim C6 witness: resubmitting the stored pair `("T1", paypal)`
conflicts and leaves the store unchanged. -/
theorem payment_duplicate_conflict_witness :
    createPayment
        ⟨[⟨1, "Payment Pending"⟩],
         [⟨9, 1, "Carl", "c@x.com", 10, "paypal", "T1", "", "No remarks.", "Pending"⟩], []⟩
        ⟨some 1, "Carl", "c@x.com", some 10, "paypal", "T1", "", "", ""⟩ 10
      = (⟨[⟨1, "Payment Pending"⟩],
          [⟨9, 1, "Carl", "c@x.com", 10, "paypal", "T1", "", "No remarks.", "Pending"⟩], []⟩,
         RouteResult.conflict) :=
  payment_duplicate_conflict
    ⟨[⟨1, "Payment Pending"⟩],
     [⟨9, 1, "Carl", "c@x.com", 10, "paypal", "T1", "", "No remarks.", "Pending"⟩], []⟩
    ⟨some 1, "Carl", "c@x.com", some 10, "paypal", "T1", "", "", ""⟩ 10 1 10
    rfl rfl rfl (by decide) (by decide)

/-- Claim C9: a well-formed, fresh payment submission referencing a
nonexistent order still persists the payment, modifies no order, and
returns success (201 with the created payment). -/
theorem payment_missing_order_kept (db : DB) (req : PaymentReq)
    (freshId oid : Nat) (amt : Int)
    (hmiss : missingPaymentFields req = false)
    (hoid : req.orderId = some oid)
    (hamt : req.amount = some amt)
    (hvalid : paymentDocValid (newPaymentRec req freshId oid amt) = true)
    (hfresh : duplicateTransaction db req.transactionId = false)
    (hfind : findOrder db oid = none) :
    createPayment db req freshId
      = ({ db with payments := db.payments ++ [newPaymentRec req freshId oid amt] },
          RouteResult.created) := by
  simp [createPayment, hmiss, hoid, hamt, hvalid, hfresh,
    findOrder_set_payments, hfind]

/-- Claim C9 witness: order `5` does not exist, yet the payment is stored
and the response is 201. -/
theorem payment_missing_order_kept_witness :
    createPayment ⟨[], [], []⟩
        ⟨some 5, "Carl", "c@x.com", some 10, "paypal", "T1", "", "", ""⟩ 1
      = (⟨[], [newPaymentRec ⟨some 5, "Carl", "c@x.com", some 10, "paypal", "T1", "", "", ""⟩ 1 5 10], []⟩,
         RouteResult.created) :=
  payment_missing_order_kept ⟨[], [], []⟩
    ⟨some 5, "Carl", "c@x.com", some 10, "paypal", "T1", "", "", ""⟩ 1 5 10
    rfl rfl rfl (by decide) rfl rfl

/-- Claim C3 counterexample: a valid, fresh payment submission that
supplies `status: "Approved"` in its body is accepted (201), and the
payment stored by `Payment.create` — `status: status || "Pending"` —
carries status `Approved`, not the claimed `Pending`. -/
theorem payment_pending_status_counterexample :
    (createPayment ⟨[⟨1, "Pending"⟩], [], []⟩
        ⟨some 1, "Carl", "c@x.com", some 10, "paypal", "T1", "", "", "Approved"⟩ 1).2
      = RouteResult.created ∧
    ((createPayment ⟨[⟨1, "Pending"⟩], [], []⟩
        ⟨some 1, "Carl", "c@x.com", some 10, "paypal", "T1", "", "", "Approved"⟩ 1).1.payments.map
      PaymentRec.status)
      = ["Approved"] :=
  ⟨rfl, rfl⟩

/-- Claim C3 amended: a valid payment submission that supplies no status
override and whose `transactionId` does not already exist (the
single-field unique index makes transactionId freshness, not merely pair
freshness, the effective precondition) creates a payment with status
`Pending`, and sets the referenced order's status to `Payment Pending`,
unconditionally overwriting its previous status. -/
theorem payment_submission_fresh_success (db : DB) (req : PaymentReq)
    (freshId oid : Nat) (amt : Int) (o : OrderRec)
    (hmiss : missingPaymentFields req = false)
    (hoid : req.orderId = some oid)
    (hamt : req.amount = some amt)
    (hstatus : req.status = "")
    (hmethod : isPaymentMethod req.paymentMethod = true)
    (hamt0 : 0 ≤ amt)
    (hfresh : duplicateTransaction db req.transactionId = false)
    (hfind : findOrder db oid = some o) :
    (createPayment db req freshId).2 = RouteResult.created ∧
    (createPayment db req freshId).1.payments
      = db.payments ++ [newPaymentRec req freshId oid amt] ∧
    (newPaymentRec req freshId oid amt).status = "Pending" ∧
    findOrder (createPayment db req freshId).1 oid
      = some { o with status := "Payment Pending" } := by
  have hpend : (newPaymentRec req freshId oid amt).status = "Pending" := by
    simp [newPaymentRec, hstatus]
  have hvalid : paymentDocValid (newPaymentRec req freshId oid amt) = true := by
    simp [paymentDocValid, newPaymentRec, hstatus, hmethod, isPaymentStatus, hamt0]
  refine ⟨?_, ?_, hpend, ?_⟩ <;>
    simp [createPayment, hmiss, hoid, hamt, hvalid, hfresh, hfind,
      findOrder_set_payments, findOrder_updateOrderStatus, payments_updateOrderStatus]

/-- Claim C3 amended witness: a `Completed` order is still overwritten to
`Payment Pending` by a fresh, status-less submission. -/
theorem payment_submission_fresh_success_witness :
    (createPayment ⟨[⟨1, "Completed"⟩], [], []⟩
        ⟨some 1, "Carl", "c@x.com", some 10, "paypal", "T1", "", "", ""⟩ 2).2
      = RouteResult.created ∧
    (createPayment ⟨[⟨1, "Completed"⟩], [], []⟩
        ⟨some 1, "Carl", "c@x.com", some 10, "paypal", "T1", "", "", ""⟩ 2).1.payments
      = [] ++ [newPaymentRec ⟨some 1, "Carl", "c@x.com", some 10, "paypal", "T1", "", "", ""⟩ 2 1 10] ∧
    (newPaymentRec ⟨some 1, "Carl", "c@x.com", some 10, "paypal", "T1", "", "", ""⟩ 2 1 10).status
      = "Pending" ∧
    findOrder (createPayment ⟨[⟨1, "Completed"⟩], [], []⟩
        ⟨some 1, "Carl", "c@x.com", some 10, "paypal", "T1", "", "", ""⟩ 2).1 1
      = some ⟨1, "Payment Pending"⟩ :=
  payment_submission_fresh_success ⟨[⟨1, "Completed"⟩], [], []⟩
    ⟨some 1, "Carl", "c@x.com", some 10, "paypal", "T1", "", "", ""⟩ 2 1 10
    ⟨1, "Completed"⟩ rfl rfl rfl rfl (by decide) (by decide) rfl rfl

/-- Claim C2 counterexample: starting from a store whose one order has
the enum status `Pending` and which holds an existing refund for it (the
same premise the refund-review claims use), reviewing that refund as
`Rejected` — one operation of the system — stores the status
`Refund Rejected` through the validator-less
`Order.findByIdAndUpdate(refundRequest.orderId, { status: "Refund
Rejected" })`, a value outside the declared order status enum. -/
theorem order_status_enum_counterexample :
    dbStatusesInEnum
        ⟨[⟨1, "Pending"⟩], [], [⟨3, 7, 1, "Carl", "c@x.com", 50, "late", "Pending", ""⟩]⟩
      = true ∧
    dbStatusesInEnum (sysStep
        ⟨[⟨1, "Pending"⟩], [], [⟨3, 7, 1, "Carl", "c@x.com", 50, "late", "Pending", ""⟩]⟩
        (SysOp.opUpdateRefund 3 "Rejected" "no")) = false :=
  ⟨rfl, rfl⟩

/-- Claim C2 amended: every operation of the system preserves membership
of every stored order status in the schema enum extended by the single
value `Refund Rejected`, which the refund review's rejection path writes
through a validator-less `Order.findByIdAndUpdate`; the strict schema
enum itself is not preserved (see the counterexample), while the
intake's `Refund Pending` write is unreachable (see `refundRequests`). -/
theorem order_status_extended_invariant (db : DB) (op : SysOp)
    (h : dbStatusesInExtendedEnum db = true) :
    dbStatusesInExtendedEnum (sysStep db op) = true := by
  cases op with
  | opCreateOrder i =>
    have h' : (db.orders.all fun o => isExtendedOrderStatus o.status) = true := h
    simp only [sysStep, createOrder, dbStatusesInExtendedEnum]
    rw [List.all_append, h']
    simp [isExtendedOrderStatus, isOrderStatus]
  | opUpdateOrder i sp =>
    simp only [sysStep, updateOrder]
    cases sp with
    | none =>
      cases hfo : findOrder db i <;> simp [hfo, h]
    | some s =>
      by_cases hs : isOrderStatus s = true
      · have hs' : isExtendedOrderStatus s = true := by
          simp [isExtendedOrderStatus, hs]
        cases hfo : findOrder db i with
        | none => simp [hs, hfo, h]
        | some o =>
          simpa [hs, hfo] using extended_updateOrderStatus db i s hs' h
      · simp only [Bool.not_eq_true] at hs
        simp [hs, h]
  | opDeleteOrder i =>
    simp only [sysStep, deleteOrder]
    cases hfo : findOrder db i with
    | none => simpa [hfo] using h
    | some o =>
      simp only [hfo]
      simp only [dbStatusesInExtendedEnum] at h ⊢
      rw [List.all_eq_true] at h ⊢
      intro x hx
      exact h x (List.mem_of_mem_filter hx)
  | opCreatePayment req f =>
    simp only [sysStep, createPayment]
    split
    · exact h
    · split
      · split
        · exact h
        · split
          · exact h
          · split
            · exact extended_updateOrderStatus _ _ _ (by decide) h
            · exact h
      · exact h
  | opUpdatePayment i u =>
    simp only [sysStep, updatePayment]
    split
    · exact h
    · split
      · exact h
      · split
        · split
          · split
            · exact h
            · exact extended_updateOrderStatus _ _ _ (by decide) h
          · exact h
        · exact h
  | opRefundRequest req =>
    simp only [sysStep, refundRequests]
    split
    · exact h
    · split
      · exact h
      · split
        · exact h
        · split
          · exact h
          · exact h
  | opUpdateRefund i s a =>
    simp only [sysStep, updateRefund]
    split
    · exact h
    · split
      · exact h
      · split
        · split
          · exact extended_updateOrderStatus _ _ _ (by decide) h
          · exact extended_updateOrderStatus _ _ _ (by decide) h
        · split
          · exact extended_updateOrderStatus _ _ _ (by decide) h
          · exact extended_updateOrderStatus _ _ _ (by decide) h

/-- Claim C2 amended witness: one step (a manual order PATCH to
`Completed`) from a store already holding the extra status
`Refund Rejected` stays inside the extended status set. -/
theorem order_status_extended_invariant_witness :
    dbStatusesInExtendedEnum (sysStep ⟨[⟨1, "Refund Rejected"⟩], [], []⟩
        (SysOp.opUpdateOrder 1 (some "Completed"))) = true :=
  order_status_extended_invariant ⟨[⟨1, "Refund Rejected"⟩], [], []⟩
    (SysOp.opUpdateOrder 1 (some "Completed")) (by decide)

end FollowerCart
